import Mathlib

set_option linter.unusedVariables false

/-!
Verification of the ospray-studio distributed scene-graph tutorial
(`pysg/tutorial/sgDistTutorial.py`) and of the minimal scene-graph /
distributed-frame core its specification describes.

The tutorial script itself contributes the concrete camera parameters,
vertex / color / index buffers and the call sequence; the scene-graph
node operations, the LightsManager and the Distributed Frame Coordinator
live in the native library outside this source tree and are modelled
from the specification, as marked on each definition.
-/

namespace SG

/-- Modelled from the spec: the error taxonomy of section 7 of the spec
(the native library's exception kinds are not in the source tree). -/
inductive Err where
  | DuplicateNameError
  | UnknownTypeError
  | UnknownSubtypeError
  | ShapeMismatchError
  | NotFoundError
  | TypeMismatchError
  | IncompleteSceneError
  | UnknownLightKindError
  | RenderFailure
  | FrameNotReadyError
  | FileWriteError
  deriving DecidableEq, Repr

/-- Modelled from the spec: a Scene Node — a named, typed node owning a
mapping from child name to child node (the native node class is not in
the source tree).  Children are kept in insertion order. -/
inductive Node where
  | mk (name : String) (typeTag : String) (children : List (String × Node))

/-- Name of a node. -/
def Node.name : Node → String
  | .mk n _ _ => n

/-- Type tag of a node. -/
def Node.typeTag : Node → String
  | .mk _ t _ => t

/-- Child mapping of a node (name-keyed association list). -/
def Node.children : Node → List (String × Node)
  | .mk _ _ c => c

/-- Lookup of a child entry by name in the child mapping. -/
def Node.findChild (p : Node) (n : String) : Option (String × Node) :=
  p.children.find? (fun c => c.1 == n)

/-- Whether a name is already present in the child mapping. -/
def Node.hasChild (p : Node) (n : String) : Bool :=
  (p.findChild n).isSome

/-- Modelled from the spec: `child(name)` — lookup; fails with
`NotFoundError` if absent. -/
def Node.child (p : Node) (n : String) : Except Err Node :=
  match p.findChild n with
  | some c => .ok c.2
  | none => .error .NotFoundError

/-- Modelled from the spec: the registry of known type-tag strings
(capability-keyed factory); the tags are the ones the tutorial uses. -/
def typeRegistry : List String :=
  ["float", "vec2i", "vec3f", "transform", "geometry_triangles"]

/-- Modelled from the spec: `createChild(name, typeTag)` — constructs a
node of the given type under this node; fails with `DuplicateNameError`
if the name is already present and with `UnknownTypeError` if the type
tag is unrecognized.  Returns the call's result together with the
(possibly updated) parent, so that atomicity on error is expressible. -/
def Node.createChild (p : Node) (n tag : String) : Except Err Node × Node :=
  if p.hasChild n then
    (.error .DuplicateNameError, p)
  else if typeRegistry.contains tag then
    let c := Node.mk n tag []
    (.ok c, Node.mk p.name p.typeTag (p.children ++ [(n, c)]))
  else
    (.error .UnknownTypeError, p)

/-- Modelled from the spec: a Frame constructor that eagerly creates the
fixed set of well-known children `world` and `camera` at construction
time (Design Notes, default-child population). -/
def Frame.construct : Node :=
  Node.mk "frame" "frame"
    [("world", Node.mk "world" "world" []),
     ("camera", Node.mk "camera" "camera" [])]

/-- Modelled from the spec: a LightsManager — it owns a list of managed
(name, kind) light entries (the native class is not in the source tree). -/
structure LightsManager where
  lights : List (String × String)

/-- Modelled from the spec: the registry of known light kinds; the
tutorial registers kind "ambient". -/
def lightKindRegistry : List String := ["ambient"]

/-- Modelled from the spec: `addLight(name, kind)` — registers a light
of the given kind under management; fails with `UnknownLightKindError`
for an unrecognized kind. -/
def LightsManager.addLight (m : LightsManager) (n kind : String) :
    Except Err LightsManager :=
  if lightKindRegistry.contains kind then
    .ok { lights := m.lights ++ [(n, kind)] }
  else
    .error .UnknownLightKindError

/-- Modelled from the spec: the world's light list; each entry records
the id of the manager that pushed it together with the light entry, so
that a manager can replace its previously pushed set. -/
structure WorldLights where
  lightList : List (Nat × String × String)

/-- Modelled from the spec: `updateWorld(worldNode)` — pushes all
managed lights into the world's light list, replacing any previously
pushed set from this manager (identified by `mid`). -/
def LightsManager.updateWorld (m : LightsManager) (mid : Nat)
    (w : WorldLights) : WorldLights :=
  { lightList :=
      w.lightList.filter (fun e => e.1 ≠ mid) ++ m.lights.map (fun l => (mid, l)) }

/-- Modelled from the spec: the Coordinator's per-rank frame states,
`Idle → Rendering → Compositing → Ready`. -/
inductive CState where
  | Idle
  | Rendering
  | Compositing
  | Ready
  deriving DecidableEq, Repr

/-- Modelled from the spec: the two-state resolution mode — reduced
"navigation" resolution for the first frame after a change, full
resolution afterwards. -/
inductive ResMode where
  | navigation
  | full
  deriving DecidableEq, Repr

/-- Modelled from the spec: the Distributed Frame Coordinator state of
one rank: frame state, resolution of the current frame buffer, the
sticky first-frame-after-change flag, the `immediatelyWait` setting and
whether a Ready state has ever been reached. -/
structure Coordinator where
  state : CState
  resolution : ResMode
  firstAfterChange : Bool
  immediatelyWait : Bool
  everReady : Bool
  deriving DecidableEq, Repr

/-- Modelled from the spec: the Coordinator created with the Frame node:
Idle, no frame ever Ready, and the next frame is the first after the
(initial) scene change. -/
def Coordinator.construct (iw : Bool) : Coordinator :=
  { state := .Idle, resolution := .full, firstAfterChange := true,
    immediatelyWait := iw, everReady := false }

/-- Modelled from the spec: a scene/topology change makes the next frame
the first one after a change (navigation resolution). -/
def Coordinator.sceneChange (c : Coordinator) : Coordinator :=
  { c with firstAfterChange := true }

/-- Modelled from the spec: `startNewFrame()` — transitions Ready/Idle
to Rendering and invalidates the previous buffer; the first frame after
a change renders at navigation resolution, later ones at full
resolution; with `immediatelyWait` true the call itself blocks until
Ready. -/
def Coordinator.startNewFrame (c : Coordinator) : Coordinator :=
  let res : ResMode := if c.firstAfterChange then .navigation else .full
  if c.immediatelyWait then
    { c with state := .Ready, resolution := res, firstAfterChange := false,
             everReady := true }
  else
    { c with state := .Rendering, resolution := res, firstAfterChange := false }

/-- Modelled from the spec: `waitOnFrame()` — blocks the calling rank
until its local Compositing step has produced a Ready buffer; from Idle
there is no frame in flight to wait for. -/
def Coordinator.waitOnFrame (c : Coordinator) : Coordinator :=
  match c.state with
  | .Idle => c
  | _ => { c with state := .Ready, everReady := true }

/-- Modelled from the spec: `saveFrame(path, channel)` — serializes the
currently Ready buffer; fails with `FrameNotReadyError` if called before
any Ready state has been reached. -/
def Coordinator.saveFrame (c : Coordinator) : Except Err Unit :=
  if c.everReady then .ok () else .error .FrameNotReadyError

/-- Modelled from the spec: the caller-visible operations other than
`startNewFrame` and `saveFrame` that exist before the first render. -/
inductive PreOp where
  | sceneChange
  | waitOnFrame
  deriving DecidableEq, Repr

/-- Application of one such operation to a Coordinator. -/
def Coordinator.applyPreOp (c : Coordinator) : PreOp → Coordinator
  | .sceneChange => c.sceneChange
  | .waitOnFrame => c.waitOnFrame

/-- Modelled from the spec: the outcome of one rank's render/composite
step, as reported by the delegated backend. -/
inductive RenderOutcome where
  | success
  | failure (diagnostic : String)

/-- Modelled from the spec: one advancing step of the per-rank frame
state machine on success (`Idle` has no frame in flight and stays). -/
def CState.advance : CState → CState
  | .Idle => .Idle
  | .Rendering => .Compositing
  | .Compositing => .Ready
  | .Ready => .Ready

/-- Modelled from the spec: the render/composite step of one rank.  On
success the frame state advances; a failure is reported to that rank as
`RenderFailure` with its diagnostic and the frame state remains at the
pre-failure stage (no automatic retry). -/
def Coordinator.renderStep (c : Coordinator) :
    RenderOutcome → Coordinator × Option (Err × String)
  | .success =>
      (if c.state = .Ready ∨ c.state.advance = .Ready then
         { c with state := c.state.advance, everReady := true }
       else
         { c with state := c.state.advance }, none)
  | .failure d => (c, some (.RenderFailure, d))

/-- Modelled from the spec: one pixel's contribution from a rank — a
depth together with a color sample (abstracted to a natural number). -/
def Contribution : Type := Nat × Nat

/-- Modelled from the spec: the per-pixel inter-rank reduction of the
compositing step, here nearest-depth-wins with a deterministic
tie-break, one admissible associative and commutative choice of the
backend's reduction. -/
def compositePixel (a b : Contribution) : Contribution :=
  if a.1 < b.1 then a
  else if b.1 < a.1 then b
  else (a.1, min a.2 b.2)

/-- Modelled from the spec: a full-resolution image, a per-pixel map of
contributions. -/
def Image : Type := Nat → Contribution

/-- Modelled from the spec: the per-pixel combination of two ranks'
partial images. -/
def compositeImage (a b : Image) : Image :=
  fun p => compositePixel (a p) (b p)

/-- Modelled from the spec: the inter-rank reduction combining the
partial images of the ranks, in the order in which the ranks complete,
onto the background. -/
def compositeAll (ranks : List Image) (bg : Image) : Image :=
  ranks.foldr compositeImage bg

/-! Concrete data of the tutorial script `sgDistTutorial.py`.  The
float32 literals of the script are exactly representable, so the buffers
are embedded over `ℚ`. -/

/-- Width constant `W = 1024` of the tutorial. -/
def W : Nat := 1024

/-- Height constant `H = 768` of the tutorial. -/
def H : Nat := 768

/-- Camera position of the tutorial:
`vec3f((mpiWorldSize + 1.0) / 2.0, 0.5, -mpiWorldSize * 0.5)`.
It reads the world size only; the rank id is in scope in the script but
unused here, which the explicit `mpiRank` argument records. -/
def pos (mpiRank mpiWorldSize : Nat) : ℚ × ℚ × ℚ :=
  (((mpiWorldSize : ℚ) + 1) / 2, 1 / 2, -(mpiWorldSize : ℚ) * (1 / 2))

/-- Camera direction of the tutorial: `vec3f(0.0, 0.0, 1.0)`. -/
def dir (mpiRank mpiWorldSize : Nat) : ℚ × ℚ × ℚ := (0, 0, 1)

/-- Camera up vector of the tutorial: `vec3f(0.0, 1.0, 0.0)`. -/
def up (mpiRank mpiWorldSize : Nat) : ℚ × ℚ × ℚ := (0, 1, 0)

/-- Camera aspect of the tutorial: `float(W) / H`. -/
def aspect (mpiRank mpiWorldSize : Nat) : ℚ := (W : ℚ) / (H : ℚ)

/-- All camera parameters a rank configures in the tutorial. -/
def camParams (mpiRank mpiWorldSize : Nat) :
    (ℚ × ℚ × ℚ) × (ℚ × ℚ × ℚ) × (ℚ × ℚ × ℚ) × ℚ :=
  (pos mpiRank mpiWorldSize, dir mpiRank mpiWorldSize,
   up mpiRank mpiWorldSize, aspect mpiRank mpiWorldSize)

/-- Vertex buffer of the tutorial, a function of the rank id:
rows `[mpiRank, 0, 3.5]`, `[mpiRank, 1, 3]`,
`[mpiRank + 1, 0, 3]`, `[mpiRank + 1, 1, 2.5]`. -/
def vertex (mpiRank : Nat) : List (List ℚ) :=
  [[(mpiRank : ℚ), 0, 7 / 2],
   [(mpiRank : ℚ), 1, 3],
   [(mpiRank : ℚ) + 1, 0, 3],
   [(mpiRank : ℚ) + 1, 1, 5 / 2]]

/-- Index buffer of the tutorial: `[[0, 1, 2], [1, 2, 3]]`. -/
def index : List (List Nat) := [[0, 1, 2], [1, 2, 3]]

/-! Helper lemmas. -/

theorem compositePixel_comm (a b : Contribution) :
    compositePixel a b = compositePixel b a := by
  obtain ⟨a1, a2⟩ := a
  obtain ⟨b1, b2⟩ := b
  simp only [compositePixel]
  by_cases h1 : a1 < b1
  · have h2 : ¬ b1 < a1 := by omega
    simp [h1, h2]
  · by_cases h2 : b1 < a1
    · simp [h1, h2]
    · have h3 : a1 = b1 := by omega
      simp [h1, h2, h3, Nat.min_comm]

set_option maxHeartbeats 1000000 in
theorem compositePixel_assoc (a b c : Contribution) :
    compositePixel (compositePixel a b) c
      = compositePixel a (compositePixel b c) := by
  obtain ⟨a1, a2⟩ := a
  obtain ⟨b1, b2⟩ := b
  obtain ⟨c1, c2⟩ := c
  simp only [compositePixel, Nat.min_def]
  split_ifs <;> first | rfl | omega

theorem compositeImage_right_comm (a b r : Image) :
    compositeImage a (compositeImage b r)
      = compositeImage b (compositeImage a r) := by
  funext p
  simp only [compositeImage]
  rw [← compositePixel_assoc, ← compositePixel_assoc,
    compositePixel_comm (a p) (b p)]

theorem foldr_right_comm_of_perm {α β : Type} (f : α → β → β)
    (hc : ∀ a b r, f a (f b r) = f b (f a r)) :
    ∀ {l₁ l₂ : List α}, l₁.Perm l₂ → ∀ b, l₁.foldr f b = l₂.foldr f b := by
  intro l₁ l₂ hp
  induction hp with
  | nil => intro b; rfl
  | cons x _ ih => intro b; simp only [List.foldr]; rw [ih b]
  | swap x y l => intro b; simp only [List.foldr]; rw [hc]
  | trans _ _ ih₁ ih₂ => intro b; rw [ih₁ b, ih₂ b]

theorem find?_append_none {α : Type} (q : α → Bool) (l₁ l₂ : List α) :
    l₁.find? q = none → (l₁ ++ l₂).find? q = l₂.find? q := by
  induction l₁ with
  | nil => intro _; rfl
  | cons a t ih =>
    intro h
    cases hp : q a
    · rw [List.cons_append, List.find?_cons_of_neg _ (by simp [hp])]
      rw [List.find?_cons_of_neg _ (by simp [hp])] at h
      exact ih h
    · rw [List.find?_cons_of_pos _ (by simp [hp])] at h
      exact absurd h (by simp)

theorem filter_self_idem {α : Type} (q : α → Bool) (l : List α) :
    (l.filter q).filter q = l.filter q := by
  induction l with
  | nil => rfl
  | cons a t ih =>
    cases hq : q a
    · rw [List.filter_cons_of_neg (by simp [hq])]
      exact ih
    · rw [List.filter_cons_of_pos (by simp [hq]),
        List.filter_cons_of_pos (by simp [hq]), ih]

theorem preOps_keep_idle (ops : List PreOp) :
    ∀ c : Coordinator, c.state = CState.Idle →
      (ops.foldl Coordinator.applyPreOp c).state = CState.Idle ∧
      (ops.foldl Coordinator.applyPreOp c).everReady = c.everReady := by
  induction ops with
  | nil => intro c h; exact ⟨h, rfl⟩
  | cons op t ih =>
    intro c h
    cases op with
    | sceneChange =>
      have := ih c.sceneChange (by simpa [Coordinator.sceneChange] using h)
      simpa [List.foldl, Coordinator.applyPreOp, Coordinator.sceneChange]
        using this
    | waitOnFrame =>
      have hw : c.waitOnFrame = c := by
        simp [Coordinator.waitOnFrame, h]
      have := ih c.waitOnFrame (by rw [hw]; exact h)
      simpa [List.foldl, Coordinator.applyPreOp, hw] using this

/-! Claim theorems. -/

/-- C1: the per-pixel inter-rank reduction of the compositing step is
associative and commutative, so for a fixed scene and world size two
runs in which the ranks complete their local renders in different
relative orders (permutations of the completion list) produce
pixel-identical composited output. -/
theorem composite_order_independence :
    (∀ a b : Contribution, compositePixel a b = compositePixel b a) ∧
    (∀ a b c : Contribution,
      compositePixel (compositePixel a b) c
        = compositePixel a (compositePixel b c)) ∧
    (∀ (ranks₁ ranks₂ : List Image) (bg : Image), ranks₁.Perm ranks₂ →
      compositeAll ranks₁ bg = compositeAll ranks₂ bg) := by
  refine ⟨compositePixel_comm, compositePixel_assoc, ?_⟩
  intro r₁ r₂ bg hp
  exact foldr_right_comm_of_perm compositeImage compositeImage_right_comm hp bg

/-- Witness for C1 at two concrete rank images completing in either
order. -/
theorem composite_order_independence_witness :
    compositeAll [fun _ => ((1, 5) : Contribution), fun _ => ((2, 7) : Contribution)]
        (fun _ => ((100, 0) : Contribution))
      = compositeAll [fun _ => ((2, 7) : Contribution), fun _ => ((1, 5) : Contribution)]
        (fun _ => ((100, 0) : Contribution)) :=
  composite_order_independence.2.2 _ _ _ (List.Perm.swap _ _ _)

/-- C2: with `immediatelyWait = true`, after a scene/topology change two
successive `startNewFrame` calls followed by `waitOnFrame` leave the
Coordinator in state Ready with the frame buffer at full resolution; the
first call renders at navigation resolution, and once the sticky flag is
cleared every further `startNewFrame` renders at full resolution. -/
theorem render_twice_full_resolution (c : Coordinator)
    (hiw : c.immediatelyWait = true) (hfc : c.firstAfterChange = true) :
    c.startNewFrame.resolution = ResMode.navigation ∧
    c.startNewFrame.startNewFrame.waitOnFrame.state = CState.Ready ∧
    c.startNewFrame.startNewFrame.waitOnFrame.resolution = ResMode.full ∧
    (∀ d : Coordinator, d.firstAfterChange = false →
      d.startNewFrame.resolution = ResMode.full ∧
      d.startNewFrame.firstAfterChange = false) := by
  refine ⟨?_, ?_, ?_, ?_⟩
  · simp [Coordinator.startNewFrame, hiw, hfc]
  · simp [Coordinator.startNewFrame, Coordinator.waitOnFrame, hiw, hfc]
  · simp [Coordinator.startNewFrame, Coordinator.waitOnFrame, hiw, hfc]
  · intro d hd
    by_cases h : d.immediatelyWait <;>
      simp [Coordinator.startNewFrame, hd, h]

/-- Witness for C2 at the freshly constructed Coordinator with
`immediatelyWait` set. -/
theorem render_twice_full_resolution_witness :
    (Coordinator.construct true).immediatelyWait = true ∧
    (Coordinator.construct true).firstAfterChange = true ∧
    (Coordinator.construct true).startNewFrame.resolution
      = ResMode.navigation ∧
    (Coordinator.construct true).startNewFrame.startNewFrame.waitOnFrame.state
      = CState.Ready :=
  ⟨rfl, rfl,
    (render_twice_full_resolution (Coordinator.construct true) rfl rfl).1,
    (render_twice_full_resolution (Coordinator.construct true) rfl rfl).2.1⟩

/-- C3: for every node and every name already present in that node's
child mapping, `createChild` with that name fails with
`DuplicateNameError` and leaves the parent unchanged. -/
theorem createChild_duplicate (p : Node) (n tag : String)
    (h : p.hasChild n = true) :
    (p.createChild n tag).1 = Except.error Err.DuplicateNameError ∧
    (p.createChild n tag).2 = p := by
  simp [Node.createChild, h]

/-- Witness for C3 at a Frame whose default child "world" already
exists. -/
theorem createChild_duplicate_witness :
    Frame.construct.hasChild "world" = true ∧
    (Frame.construct.createChild "world" "float").1
        = Except.error Err.DuplicateNameError ∧
    (Frame.construct.createChild "world" "float").2 = Frame.construct :=
  ⟨rfl,
    (createChild_duplicate Frame.construct "world" "float" rfl).1,
    (createChild_duplicate Frame.construct "world" "float" rfl).2⟩

/-- C4: `saveFrame` called before any `startNewFrame` — that is, on a
freshly constructed Coordinator after any sequence of scene changes and
waits but no `startNewFrame` — fails with `FrameNotReadyError`. -/
theorem saveFrame_before_first_start (iw : Bool) (ops : List PreOp) :
    ((ops.foldl Coordinator.applyPreOp (Coordinator.construct iw)).saveFrame)
      = Except.error Err.FrameNotReadyError := by
  have h := preOps_keep_idle ops (Coordinator.construct iw) rfl
  have h2 : (ops.foldl Coordinator.applyPreOp
      (Coordinator.construct iw)).everReady = false := h.2
  simp [Coordinator.saveFrame, h2]

/-- C5: for every valid (name, typeTag) pair not already used under a
node, `createChild` followed by `child(name)` on the same node returns a
node whose type tag equals typeTag. -/
theorem createChild_then_child (p : Node) (n tag : String)
    (hn : p.hasChild n = false) (ht : typeRegistry.contains tag = true) :
    ∃ c : Node, (p.createChild n tag).2.child n = Except.ok c ∧
      c.typeTag = tag := by
  have hfind : p.children.find? (fun c => c.1 == n) = none := by
    cases hf : p.children.find? (fun c => c.1 == n) with
    | none => rfl
    | some v =>
      unfold Node.hasChild Node.findChild at hn
      rw [hf] at hn
      simp at hn
  refine ⟨Node.mk n tag [], ?_, rfl⟩
  have ht' : tag ∈ typeRegistry := by
    simpa using ht
  have hchildren : ((p.createChild n tag).2).children
      = p.children ++ [(n, Node.mk n tag [])] := by
    simp [Node.createChild, Node.children, hn, ht']
  unfold Node.child Node.findChild
  rw [hchildren, find?_append_none _ _ _ hfind]
  simp

/-- Witness for C5: adding the "windowSize" child of type "vec2i" to a
fresh Frame, as the tutorial does. -/
theorem createChild_then_child_witness :
    Frame.construct.hasChild "windowSize" = false ∧
    typeRegistry.contains "vec2i" = true ∧
    ∃ c : Node,
      (Frame.construct.createChild "windowSize" "vec2i").2.child "windowSize"
          = Except.ok c ∧ c.typeTag = "vec2i" :=
  ⟨rfl, rfl, createChild_then_child Frame.construct "windowSize" "vec2i" rfl rfl⟩

/-- C6: calling `LightsManager.updateWorld` on the same world twice in
succession with no intervening `addLight` produces an identical world
light list both times: the second call replaces the previously pushed
set with an equal one. -/
theorem updateWorld_idempotent (m : LightsManager) (mid : Nat)
    (w : WorldLights) :
    m.updateWorld mid (m.updateWorld mid w) = m.updateWorld mid w := by
  unfold LightsManager.updateWorld
  congr 1
  rw [List.filter_append, filter_self_idem]
  have hmap : (m.lights.map (fun l => (mid, l))).filter
      (fun e => e.1 ≠ mid) = [] := by
    induction m.lights with
    | nil => rfl
    | cons a t ih =>
      rw [List.map_cons, List.filter_cons_of_neg (by simp)]
      exact ih
  rw [hmap, List.append_nil]

/-- C7: a freshly constructed Frame eagerly contains children named
"world" and "camera", so `child` succeeds on them with no prior
`createChild`, while `child(name)` for a name absent from a node's child
mapping fails with `NotFoundError`. -/
theorem frame_default_children :
    (∃ w : Node, Frame.construct.child "world" = Except.ok w) ∧
    (∃ c : Node, Frame.construct.child "camera" = Except.ok c) ∧
    (∀ (p : Node) (n : String), p.hasChild n = false →
      p.child n = Except.error Err.NotFoundError) := by
  refine ⟨⟨Node.mk "world" "world" [], rfl⟩,
    ⟨Node.mk "camera" "camera" [], rfl⟩, ?_⟩
  intro p n h
  unfold Node.child
  cases hf : p.findChild n with
  | none => rfl
  | some v =>
    unfold Node.hasChild at h
    rw [hf] at h
    simp at h

/-- Witness for C7: the fresh Frame has no "renderer" child yet, and
looking it up fails with `NotFoundError`. -/
theorem frame_default_children_witness :
    Frame.construct.hasChild "renderer" = false ∧
    Frame.construct.child "renderer" = Except.error Err.NotFoundError :=
  ⟨rfl, frame_default_children.2.2 Frame.construct "renderer" rfl⟩

/-- C8: when a render/composite step fails on a rank, a `RenderFailure`
with the diagnostic is reported to that rank; the rank's frame state
stays at the pre-failure stage — in particular it is never advanced to
Ready — and no retry happens inside the step: the caller must call
`startNewFrame` again. -/
theorem render_failure_semantics (c : Coordinator) (d : String) :
    (c.renderStep (RenderOutcome.failure d)).1 = c ∧
    (c.renderStep (RenderOutcome.failure d)).2
        = some (Err.RenderFailure, d) ∧
    (c.state ≠ CState.Ready →
      (c.renderStep (RenderOutcome.failure d)).1.state ≠ CState.Ready) :=
  ⟨rfl, rfl, fun h => h⟩

/-- Witness for C8 at a freshly constructed Coordinator and a concrete
diagnostic. -/
theorem render_failure_semantics_witness :
    (Coordinator.construct false).state ≠ CState.Ready ∧
    ((Coordinator.construct false).renderStep
        (RenderOutcome.failure "device lost")).1.state ≠ CState.Ready :=
  ⟨by decide,
    (render_failure_semantics (Coordinator.construct false)
      "device lost").2.2 (by decide)⟩

/-- C9: in the tutorial, for every rank id the vertex buffer has exactly
4 rows and every entry of the index buffer is a valid 0-based row index
into it (only the values 0, 1, 2, 3 occur). -/
theorem index_entries_in_bounds (mpiRank : Nat) :
    (vertex mpiRank).length = 4 ∧
    ∀ row ∈ index, ∀ i ∈ row, i < (vertex mpiRank).length := by
  refine ⟨rfl, ?_⟩
  intro row hr i hi
  show i < 4
  fin_cases hr <;> fin_cases hi <;> decide

/-- Witness for C9 at rank 3 and the index entry 3 of the second
triangle. -/
theorem index_entries_in_bounds_witness :
    (vertex 3).length = 4 ∧
    [1, 2, 3] ∈ index ∧ 3 ∈ [1, 2, 3] ∧ 3 < (vertex 3).length :=
  ⟨(index_entries_in_bounds 3).1, by decide, by decide,
    (index_entries_in_bounds 3).2 [1, 2, 3] (by decide) 3 (by decide)⟩

/-- C10: in the tutorial the camera parameters (position, direction, up,
aspect) depend only on the world size and the constants W and H, never
on the rank id — every rank configures an identical camera — whereas the
vertex buffer is a function of the rank id. -/
theorem camera_rank_independent :
    (∀ r₁ r₂ ws : Nat, camParams r₁ ws = camParams r₂ ws) ∧
    vertex 0 ≠ vertex 1 := by
  constructor
  · intro r₁ r₂ ws
    rfl
  · intro h
    have h1 := congrArg (fun l => l.headI.headI) h
    norm_num [vertex] at h1

end SG
